import Mathlib

/-!
Verification development for `lib/asset/AssetGenerator.js`: a shallow
embedding of the asset generator (mode selection, data-URL encoding,
resource path resolution, type/size oracle, hash contributor) together
with theorems checking the specified properties.

JS strings are modelled as Lean `String` where only opaque text flows
through, and as `List Nat` of code points where the claims inspect
individual characters (data-URL payloads). Buffers are `List Nat` of
bytes. External collaborators (mimetype lookup, the hashing primitive,
the path-templating engine, relative-path computation, the code-emission
helper, JSON stringification) are fields of an `Env` record: the
generator uses them as opaque functions, exactly as the source does.
-/

/-- UTF-8 encoding of a single code point (standard 1-4 byte forms).
Models how a JS string is turned into bytes by `Buffer`/`source.buffer()`. -/
def utf8EncodeChar (c : Nat) : List Nat :=
  if c < 128 then [c]
  else if c < 2048 then [192 + c / 64, 128 + c % 64]
  else if c < 65536 then [224 + c / 4096, 128 + c / 64 % 64, 128 + c % 64]
  else [240 + c / 262144, 128 + c / 4096 % 64, 128 + c / 64 % 64, 128 + c % 64]

/-- UTF-8 encoding of a whole code-point sequence. -/
def utf8Encode : List Nat → List Nat
  | [] => []
  | c :: rest => utf8EncodeChar c ++ utf8Encode rest

/-- UTF-8 decoding of a byte sequence to code points, invalid sequences
becoming the replacement character 65533, as `buffer.toString("utf-8")` does. -/
def utf8Decode : List Nat → List Nat
  | [] => []
  | b :: rest =>
    if b < 128 then b :: utf8Decode rest
    else if 192 ≤ b ∧ b < 224 then
      match rest with
      | b2 :: rest2 =>
        if 128 ≤ b2 ∧ b2 < 192 then ((b - 192) * 64 + (b2 - 128)) :: utf8Decode rest2
        else 65533 :: utf8Decode (b2 :: rest2)
      | [] => [65533]
    else if 224 ≤ b ∧ b < 240 then
      match rest with
      | b2 :: b3 :: rest3 =>
        if (128 ≤ b2 ∧ b2 < 192) ∧ (128 ≤ b3 ∧ b3 < 192) then
          ((b - 224) * 4096 + (b2 - 128) * 64 + (b3 - 128)) :: utf8Decode rest3
        else 65533 :: utf8Decode (b2 :: b3 :: rest3)
      | [b2] => 65533 :: utf8Decode [b2]
      | [] => [65533]
    else if 240 ≤ b ∧ b < 248 then
      match rest with
      | b2 :: b3 :: b4 :: rest4 =>
        if (128 ≤ b2 ∧ b2 < 192) ∧ (128 ≤ b3 ∧ b3 < 192) ∧ (128 ≤ b4 ∧ b4 < 192) then
          ((b - 240) * 262144 + (b2 - 128) * 4096 + (b3 - 128) * 64 + (b4 - 128)) ::
            utf8Decode rest4
        else 65533 :: utf8Decode (b2 :: b3 :: b4 :: rest4)
      | [b2, b3] => 65533 :: utf8Decode [b2, b3]
      | [b2] => 65533 :: utf8Decode [b2]
      | [] => [65533]
    else 65533 :: utf8Decode rest
termination_by l => l.length
decreasing_by all_goals (simp only [List.length_cons, List.length_nil]; omega)

/-- The code points of a Lean string (used to model a JS string literal). -/
def stringUnits (s : String) : List Nat := s.data.map Char.toNat

/-- Original content of a module as exposed by `webpack-sources`:
`source()` returns either a JS string or a Buffer. -/
inductive SourceContent where
  | str (units : List Nat)
  | buf (bytes : List Nat)
deriving DecidableEq

/-- `originalSource.buffer()`: raw bytes (a string is UTF-8 encoded). -/
def SourceContent.buffer : SourceContent → List Nat
  | .str u => utf8Encode u
  | .buf b => b

/-- The text view used by the `encoding: false` branch: the string itself,
or `content.toString("utf-8")` for a Buffer. -/
def SourceContent.textUnits : SourceContent → List Nat
  | .str u => u
  | .buf b => utf8Decode b

/-- `originalSource.size()`: the byte size of the content. -/
def SourceContent.size (s : SourceContent) : Nat := s.buffer.length

/-- Asset info metadata attached by path resolution (opaque key/value bag). -/
def AssetInfo := List (String × String)
deriving instance DecidableEq for AssetInfo

/-- The per-module `buildInfo` record: the inline (`dataUrl`) flag plus the
three fields written only in Resource mode. -/
structure BuildInfo where
  dataUrl : Bool
  filename : Option String
  assetInfo : Option AssetInfo
  fullContentHash : Option String
deriving DecidableEq

/-- A `NormalModule` as seen by the generator. -/
structure AssetModule where
  originalSource : Option SourceContent
  resource : String
  matchResource : Option String
  nameForCondition : String
  buildInfo : BuildInfo
deriving DecidableEq

/-- JS `a || b` on an optional string and a fallback (empty string is falsy). -/
def jsOrStr (a : Option String) (b : String) : String :=
  match a with
  | some s => if s = "" then b else s
  | none => b

/-- The declarative `encoding` option: `"base64"`, `false`, or any other
(unsupported) value. -/
inductive EncodingOpt where
  | base64
  | noEncoding
  | other (s : String)
deriving DecidableEq

/-- `dataUrl` generator options: a custom encoder function (called with the
original content and the module filename and the module itself) or the
declarative `{encoding, mimetype}` form. -/
inductive DataUrlOptions where
  | custom (fn : SourceContent → String → AssetModule → List Nat)
  | declarative (encoding : EncodingOpt) (mimetype : Option String)

/-- The `AssetGenerator` instance state: its `dataUrlOptions` and the
optional `filename` override for `output.assetModuleFilename`. -/
structure AssetGenerator where
  dataUrlOptions : DataUrlOptions
  filename : Option String

/-- One `hash.update` argument: a string (the salt) or a byte buffer. -/
inductive HashInput where
  | str (s : String)
  | bytes (b : List Nat)
deriving DecidableEq

/-- `runtimeTemplate.outputOptions`: the build configuration consulted by
Resource mode. -/
structure OutputOptions where
  assetModuleFilename : String
  hashFunction : String
  hashSalt : Option String
  hashDigest : String
  hashDigestLength : Nat
deriving DecidableEq

/-- External collaborators, passed as opaque functions.
Modelled from the spec: `mimeLookup` is the mimetype-by-extension table;
`hashDigest` is the incremental hash finalised with a digest encoding,
applied to the sequence of `update` calls; `getAssetPathWithInfo` is the
path-templating engine, which expands a filename pattern given the content
hash and a build-root-relative path; `makePathsRelative` derives that path
from the module identifier; `declareConst` is the code-emission helper;
the two `jsonStringify` fields are JSON string quoting. -/
structure Env where
  mimeLookup : String → Option String
  hashDigest : String → String → List HashInput → String
  getAssetPathWithInfo : String → String → String → String × AssetInfo
  makePathsRelative : String → String → String
  declareConst : String → String → String
  jsonStringifyUnits : List Nat → String
  jsonStringifyStr : String → String

/-- The per-call `generateContext` (the chunk graph is never consulted by
the embedded logic, so it is omitted; `concatenationScope` is modelled by
whether a scope is present). -/
structure GenerateContext where
  runtime : String
  type : String
  runtimeRequirements : List String
  concatenationScope : Bool
deriving DecidableEq

/-- Modelled from the spec: the fixed well-known namespace-export name from
`ConcatenationScope.NAMESPACE_OBJECT_EXPORT`. -/
def NAMESPACE_OBJECT_EXPORT : String := "__WEBPACK_NAMESPACE_OBJECT__"

/-- Modelled from the spec: the runtime requirement token for the module
exports container (`RuntimeGlobals.module`). -/
def RuntimeGlobals.module : String := "module"

/-- Modelled from the spec: the runtime requirement token for the public
base path (`RuntimeGlobals.publicPath`). -/
def RuntimeGlobals.publicPath : String := "__webpack_require__.p"

/-- Split a character list on a separator character. -/
def splitOnChar (sep : Char) : List Char → List (List Char)
  | [] => [[]]
  | c :: rest =>
    match splitOnChar sep rest with
    | [] => if c = sep then [[], []] else [[c]]
    | h :: t => if c = sep then [] :: h :: t else (c :: h) :: t

/-- Last index of a dot in a character list, if any. -/
def lastDotIdx (cs : List Char) : Option Nat :=
  if ('.' : Char) ∈ cs.reverse then
    some (cs.length - 1 - cs.reverse.indexOf '.')
  else none

/-- Node `path.extname`: the extension of the basename, empty for dotfiles. -/
def pathExtname (p : String) : String :=
  let base := (splitOnChar '/' p.data).getLastD []
  if base = ['.', '.'] then ""
  else
    match lastDotIdx base with
    | none => ""
    | some 0 => ""
    | some i => String.mk (base.drop i)

/-- Strip one leading `./` (the `replace(/^\.\//, "")` in the source). -/
def stripLeadingDotSlash (s : String) : String :=
  if s.startsWith "./" then s.drop 2 else s

/-- Characters left unescaped by JS `encodeURI`: alphanumerics, the mark set
`- _ . ! ~ * ( )` and the apostrophe, and the reserved set `; / ? : @ & = + $ ,` and `#`. -/
def uriUnescaped (c : Nat) : Bool :=
  decide ((65 ≤ c ∧ c ≤ 90) ∨ (97 ≤ c ∧ c ≤ 122) ∨ (48 ≤ c ∧ c ≤ 57) ∨
    c ∈ [45, 95, 46, 33, 126, 42, 39, 40, 41, 59, 47, 63, 58, 64, 38, 61, 43, 36, 44, 35])

/-- Uppercase hex digit character for a value below 16. -/
def hexDigitChar (n : Nat) : Nat := if n < 10 then 48 + n else 55 + n

/-- A percent-escape `%XX` for one byte. -/
def percentByte (b : Nat) : List Nat := [37, hexDigitChar (b / 16), hexDigitChar (b % 16)]

/-- Percent-escape every byte of a list. -/
def percentEscapeBytes : List Nat → List Nat
  | [] => []
  | b :: rest => percentByte b ++ percentEscapeBytes rest

/-- JS `encodeURI` on a code-point sequence: unescaped characters pass
through, every other character contributes the percent-escapes of its
UTF-8 bytes. -/
def encodeURI : List Nat → List Nat
  | [] => []
  | c :: rest =>
    (if uriUnescaped c then [c] else percentEscapeBytes (utf8EncodeChar c)) ++ encodeURI rest

/-- Value of a hex digit character. -/
def hexVal (c : Nat) : Option Nat :=
  if 48 ≤ c ∧ c ≤ 57 then some (c - 48)
  else if 65 ≤ c ∧ c ≤ 70 then some (c - 55)
  else if 97 ≤ c ∧ c ≤ 102 then some (c - 87)
  else none

/-- Percent-decoding: `%XX` becomes the byte `XX`, everything else passes
through; malformed escapes fail. -/
def percentDecode : List Nat → Option (List Nat)
  | [] => some []
  | c :: rest =>
    if c = 37 then
      match rest with
      | h1 :: h2 :: rest2 =>
        match hexVal h1, hexVal h2 with
        | some d1, some d2 => (percentDecode rest2).map (fun r => (16 * d1 + d2) :: r)
        | _, _ => none
      | _ => none
    else (percentDecode rest).map (fun r => c :: r)

/-- The base64 alphabet character for a sextet value. -/
def sextetChar (n : Nat) : Nat :=
  if n < 26 then 65 + n
  else if n < 52 then 97 + (n - 26)
  else if n < 62 then 48 + (n - 52)
  else if n = 62 then 43
  else 47

/-- Standard base64 with padding, as produced by `buffer.toString("base64")`. -/
def base64Encode : List Nat → List Nat
  | [] => []
  | [b1] => [sextetChar (b1 / 4), sextetChar (b1 % 4 * 16), 61, 61]
  | [b1, b2] => [sextetChar (b1 / 4), sextetChar (b1 % 4 * 16 + b2 / 16), sextetChar (b2 % 16 * 4), 61]
  | b1 :: b2 :: b3 :: rest =>
    sextetChar (b1 / 4) :: sextetChar (b1 % 4 * 16 + b2 / 16) ::
      sextetChar (b2 % 16 * 4 + b3 / 64) :: sextetChar (b3 % 64) :: base64Encode rest

/-- Value of a base64 alphabet character. -/
def sextetVal (c : Nat) : Option Nat :=
  if 65 ≤ c ∧ c ≤ 90 then some (c - 65)
  else if 97 ≤ c ∧ c ≤ 122 then some (c - 71)
  else if 48 ≤ c ∧ c ≤ 57 then some (c + 4)
  else if c = 43 then some 62
  else if c = 47 then some 63
  else none

/-- Standard base64 decoding (with padding); malformed input fails. -/
def base64Decode : List Nat → Option (List Nat)
  | [] => some []
  | c1 :: c2 :: c3 :: c4 :: rest =>
    match sextetVal c1, sextetVal c2 with
    | some s1, some s2 =>
      if c3 = 61 then
        if c4 = 61 ∧ rest = [] then some [s1 * 4 + s2 / 16] else none
      else
        match sextetVal c3 with
        | some s3 =>
          if c4 = 61 then
            if rest = [] then some [s1 * 4 + s2 / 16, s2 % 16 * 16 + s3 / 4] else none
          else
            match sextetVal c4 with
            | some s4 =>
              (base64Decode rest).map
                (fun r => (s1 * 4 + s2 / 16) :: (s2 % 16 * 16 + s3 / 4) :: (s3 % 4 * 64 + s4) :: r)
            | none => none
        | none => none
    | _, _ => none
  | _ => some []

/-- JS `||` on the mimetype override and the extension lookup
(an empty override string is falsy). -/
def resolveMime (mimetypeOpt : Option String) (looked : Option String) : Option String :=
  match mimetypeOpt with
  | some mt => if mt = "" then looked else some mt
  | none => looked

/-- The error message thrown when no mimetype resolves (source lines 93-98). -/
def missingMimeMessage (ext : String) : String :=
  "DataUrl can\x27t be generated automatically, because there is no mimetype for \"" ++
    ext ++ "\" in mimetype database. Either pass a mimetype via \"generator.mimetype\" or " ++
    "use type: \"asset/resource\" to create a resource file instead of a DataUrl"

/-- The error message thrown for an unsupported encoding (source line 117). -/
def unsupportedEncodingMessage (s : String) : String :=
  "Unsupported encoding \x27" ++ s ++ "\x27"

/-- The data-URL string computed in the `module.buildInfo.dataUrl` branch of
`generate` (source lines 76-123): the custom function is trusted verbatim;
the declarative form resolves a mimetype, encodes the content per the
`encoding` option and composes `data:<mimetype>[;base64],<payload>`. -/
def generateDataUrl (gen : AssetGenerator) (env : Env) (m : AssetModule)
    (originalSource : SourceContent) : Except String (List Nat) :=
  match gen.dataUrlOptions with
  | .custom fn => .ok (fn originalSource (jsOrStr m.matchResource m.resource) m)
  | .declarative encoding mimetypeOpt =>
    let ext := pathExtname m.nameForCondition
    match resolveMime mimetypeOpt (env.mimeLookup ext) with
    | none => .error (missingMimeMessage ext)
    | some mimeType =>
      match encoding with
      | .base64 =>
        .ok (stringUnits ("data:" ++ mimeType ++ ";base64") ++
          44 :: base64Encode originalSource.buffer)
      | .noEncoding =>
        .ok (stringUnits ("data:" ++ mimeType) ++ 44 :: encodeURI originalSource.textUnits)
      | .other s => .error (unsupportedEncodingMessage s)

/-- Resource mode, source lines 142-149: the full digest of the hash seeded
with the optional salt and then the content bytes. -/
def resourceFullHash (env : Env) (outputOptions : OutputOptions) (buffer : List Nat) : String :=
  env.hashDigest outputOptions.hashFunction outputOptions.hashDigest
    ((match outputOptions.hashSalt with
      | some salt => [HashInput.str salt]
      | none => []) ++ [HashInput.bytes buffer])

/-- Resource mode, source lines 140-168: the `{path, info}` produced by the
path-templating collaborator from the filename template, the truncated
content hash and the build-root-relative module path. -/
def resourcePathInfo (gen : AssetGenerator) (env : Env) (compilerContext : String)
    (outputOptions : OutputOptions) (buffer : List Nat) (identifier : String) :
    String × AssetInfo :=
  env.getAssetPathWithInfo (jsOrStr gen.filename outputOptions.assetModuleFilename)
    ((resourceFullHash env outputOptions buffer).take outputOptions.hashDigestLength)
    (stripLeadingDotSlash (env.makePathsRelative compilerContext identifier))

/-- The value returned by `generate`: either the module original content
itself (Asset mode, source line 72) or a `RawSource` of generated code. -/
inductive GenSource where
  | original (c : Option SourceContent)
  | raw (s : String)
deriving DecidableEq

/-- Everything observable after a `generate` call: the returned source, the
module `buildInfo` afterwards, the runtime-requirement set afterwards, and
the namespace exports registered on the concatenation scope. -/
structure GenerateOutcome where
  source : GenSource
  buildInfo : BuildInfo
  runtimeRequirements : List String
  registeredExports : List String

/-- `AssetGenerator.generate` (source lines 59-190), with the module state
and requirement-set mutations made explicit in the outcome. -/
def generate (gen : AssetGenerator) (env : Env) (compilerContext : String)
    (outputOptions : OutputOptions) (m : AssetModule) (ctx : GenerateContext) :
    Except String GenerateOutcome :=
  if ctx.type = "asset" then
    .ok { source := .original m.originalSource, buildInfo := m.buildInfo,
          runtimeRequirements := ctx.runtimeRequirements, registeredExports := [] }
  else
    match m.originalSource with
    | none => .error "original source unavailable"
    | some originalSource =>
      if m.buildInfo.dataUrl then
        match generateDataUrl gen env m originalSource with
        | .error e => .error e
        | .ok encodedSource =>
          if ctx.concatenationScope then
            .ok { source := .raw (env.declareConst NAMESPACE_OBJECT_EXPORT
                    (env.jsonStringifyUnits encodedSource)),
                  buildInfo := m.buildInfo,
                  runtimeRequirements := ctx.runtimeRequirements,
                  registeredExports := [NAMESPACE_OBJECT_EXPORT] }
          else
            .ok { source := .raw (RuntimeGlobals.module ++ ".exports = " ++
                    env.jsonStringifyUnits encodedSource ++ ";"),
                  buildInfo := m.buildInfo,
                  runtimeRequirements := ctx.runtimeRequirements ++ [RuntimeGlobals.module],
                  registeredExports := [] }
      else
        let fullHash := resourceFullHash env outputOptions originalSource.buffer
        let pathInfo := resourcePathInfo gen env compilerContext outputOptions
          originalSource.buffer (jsOrStr m.matchResource m.resource)
        let buildInfo : BuildInfo :=
          { m.buildInfo with
            fullContentHash := some fullHash
            filename := some pathInfo.1
            assetInfo := some pathInfo.2 }
        let value := RuntimeGlobals.publicPath ++ " + " ++ env.jsonStringifyStr pathInfo.1
        if ctx.concatenationScope then
          .ok { source := .raw (env.declareConst NAMESPACE_OBJECT_EXPORT value),
                buildInfo := buildInfo,
                runtimeRequirements := ctx.runtimeRequirements ++ [RuntimeGlobals.publicPath],
                registeredExports := [NAMESPACE_OBJECT_EXPORT] }
        else
          .ok { source := .raw (RuntimeGlobals.module ++ ".exports = " ++ value ++ ";"),
                buildInfo := buildInfo,
                runtimeRequirements := ctx.runtimeRequirements ++
                  [RuntimeGlobals.publicPath, RuntimeGlobals.module],
                registeredExports := [] }

/-- The fixed set returned by `getTypes` for inline modules (source line 29). -/
def JS_TYPES : Finset String := {"javascript"}

/-- The fixed set returned by `getTypes` for non-inline modules (source line 30). -/
def JS_AND_ASSET_TYPES : Finset String := {"javascript", "asset"}

/-- `AssetGenerator.getTypes` (source lines 196-202). -/
def getTypes (m : AssetModule) : Finset String :=
  if m.buildInfo.dataUrl then JS_TYPES else JS_AND_ASSET_TYPES

/-- `AssetGenerator.getSize` (source lines 209-239); JS numbers modelled
as rationals, the omitted `type` argument as `none`. -/
def getSize (m : AssetModule) (type : Option String) : ℚ :=
  if type = some "asset" then
    match m.originalSource with
    | none => 0
    | some originalSource => (originalSource.size : ℚ)
  else
    if m.buildInfo.dataUrl then
      match m.originalSource with
      | none => 0
      | some originalSource => (originalSource.size : ℚ) * 1.34 + 36
    else 42

/-- `AssetGenerator.updateHash` (source lines 245-247); the caller-owned
incremental hash is modelled as the list of strings mixed into it. -/
def updateHash (hash : List String) (m : AssetModule) : List String :=
  hash ++ [if m.buildInfo.dataUrl then "data-url" else "resource"]

/-- `AssetGenerator.getConcatenationBailoutReason` (source lines 50-52). -/
def getConcatenationBailoutReason (m : AssetModule) : Option String :=
  if m.buildInfo.dataUrl then none else some "Asset module emits an asset"

/-- The three Resource-mode `buildInfo` fields are all unset. -/
def buildInfoUnset (b : BuildInfo) : Prop :=
  b.filename = none ∧ b.assetInfo = none ∧ b.fullContentHash = none

/-- The three Resource-mode `buildInfo` fields are all set. -/
def buildInfoAllSet (b : BuildInfo) : Prop :=
  b.filename ≠ none ∧ b.assetInfo ≠ none ∧ b.fullContentHash ≠ none

/-! ### Concrete fixtures used by witness theorems -/

/-- A fresh `buildInfo` for an inline (data-url) module. -/
def inlineBuildInfoW : BuildInfo :=
  { dataUrl := true, filename := none, assetInfo := none, fullContentHash := none }

/-- A fresh `buildInfo` for a non-inline (resource) module. -/
def resourceBuildInfoW : BuildInfo :=
  { dataUrl := false, filename := none, assetInfo := none, fullContentHash := none }

/-- An inline module holding the text "hello". -/
def inlineModuleW : AssetModule :=
  { originalSource := some (.str (stringUnits "hello")), resource := "/proj/a.txt",
    matchResource := none, nameForCondition := "/proj/a.txt", buildInfo := inlineBuildInfoW }

/-- An inline module whose original content is unavailable. -/
def inlineNoSourceW : AssetModule :=
  { originalSource := none, resource := "/proj/a.txt",
    matchResource := none, nameForCondition := "/proj/a.txt", buildInfo := inlineBuildInfoW }

/-- A non-inline module holding five bytes. -/
def resourceModuleW : AssetModule :=
  { originalSource := some (.buf [1, 2, 3, 4, 5]), resource := "/proj/b.bin",
    matchResource := none, nameForCondition := "/proj/b.bin", buildInfo := resourceBuildInfoW }

/-- A concrete collaborator environment. -/
def envW : Env :=
  { mimeLookup := fun e =>
      if e = ".txt" then some "text/plain"
      else if e = ".png" then some "image/png" else none
    hashDigest := fun _ _ _ => "0123456789abcdef0123456789abcdef"
    getAssetPathWithInfo := fun tpl h rel => (tpl ++ "-" ++ h ++ "-" ++ rel, [("tpl", tpl)])
    makePathsRelative := fun _ ident => "./" ++ ident
    declareConst := fun n v => "const " ++ n ++ " = " ++ v ++ ";"
    jsonStringifyUnits := fun _ => "\"<data-url>\""
    jsonStringifyStr := fun s => "\"" ++ s ++ "\"" }

/-- Concrete output options. -/
def ooW : OutputOptions :=
  { assetModuleFilename := "[hash][ext]", hashFunction := "md4", hashSalt := some "salt",
    hashDigest := "hex", hashDigestLength := 8 }

/-- A non-concatenated code-kind generate context. -/
def ctxJsW : GenerateContext :=
  { runtime := "main", type := "javascript", runtimeRequirements := [],
    concatenationScope := false }

/-- An asset-kind generate context. -/
def ctxAssetW : GenerateContext :=
  { runtime := "main", type := "asset", runtimeRequirements := [],
    concatenationScope := false }

/-- A generator with declarative base64 options and no filename override. -/
def genBase64W : AssetGenerator :=
  { dataUrlOptions := .declarative .base64 none, filename := none }

/-- An inline module holding PNG-like bytes. -/
def inlinePngW : AssetModule :=
  { originalSource := some (.buf [137, 80, 78, 71]), resource := "/proj/i.png",
    matchResource := none, nameForCondition := "/proj/i.png", buildInfo := inlineBuildInfoW }

/-- An inline module with an extension absent from the mimetype table. -/
def unknownExtModuleW : AssetModule :=
  { originalSource := some (.buf [1, 2]), resource := "/proj/f.unknownext",
    matchResource := none, nameForCondition := "/proj/f.unknownext",
    buildInfo := inlineBuildInfoW }

/-- The outcome of an asset-kind `generate` call on `resourceModuleW`. -/
def assetOutcomeW : GenerateOutcome :=
  { source := .original resourceModuleW.originalSource,
    buildInfo := resourceModuleW.buildInfo,
    runtimeRequirements := ctxAssetW.runtimeRequirements, registeredExports := [] }

/-! ### C6, C7, C8, C9, C10 -/

/-- C6: for every module, a `generate` call with requested output kind
"asset" returns the module's original content unchanged, leaves the
build-info record untouched, adds no runtime requirements and registers
no exports. -/
theorem generate_asset_mode_passthrough (gen : AssetGenerator) (env : Env)
    (cctx : String) (oo : OutputOptions) (m : AssetModule) (ctx : GenerateContext) :
    generate gen env cctx oo m { ctx with type := "asset" } =
      .ok { source := .original m.originalSource, buildInfo := m.buildInfo,
            runtimeRequirements := ctx.runtimeRequirements, registeredExports := [] } := by
  simp [generate]

/-- C7: `getTypes` is a pure function of the inline flag only, returning
the fixed set `JS_TYPES` = {"javascript"} (the default code kind) when the
flag is set and `JS_AND_ASSET_TYPES` = {"javascript", "asset"} otherwise;
two calls on modules with the same flag return equal sets. -/
theorem getTypes_pure_two_sets (m m2 : AssetModule)
    (h : m.buildInfo.dataUrl = m2.buildInfo.dataUrl) :
    getTypes m = getTypes m2 ∧
    getTypes m = (if m.buildInfo.dataUrl then JS_TYPES else JS_AND_ASSET_TYPES) ∧
    JS_TYPES = {"javascript"} ∧ JS_AND_ASSET_TYPES = {"javascript", "asset"} := by
  refine ⟨?_, rfl, rfl, rfl⟩
  simp [getTypes, h]

/-- Witness for C7 at two concrete modules with equal inline flags. -/
theorem getTypes_pure_two_sets_witness :
    getTypes inlineModuleW = getTypes inlineNoSourceW ∧
    getTypes inlineModuleW =
      (if inlineModuleW.buildInfo.dataUrl then JS_TYPES else JS_AND_ASSET_TYPES) ∧
    JS_TYPES = {"javascript"} ∧ JS_AND_ASSET_TYPES = {"javascript", "asset"} :=
  getTypes_pure_two_sets inlineModuleW inlineNoSourceW rfl

/-- C8: `getSize` with the default (code) kind returns
`size * 1.34 + 36` for an inline module with available content (so 36 at
content size 0), and the constant 42 for every non-inline module. -/
theorem getSize_default_sizes (m : AssetModule) :
    (∀ s, m.originalSource = some s → m.buildInfo.dataUrl = true →
      getSize m none = (s.size : ℚ) * 1.34 + 36 ∧ (s.size = 0 → getSize m none = 36)) ∧
    (m.buildInfo.dataUrl = false → getSize m none = 42) := by
  constructor
  · intro s hs hd
    constructor
    · simp [getSize, hs, hd]
    · intro h0
      simp [getSize, hs, hd, h0]
  · intro hd
    simp [getSize, hd]

/-- Witness for C8 at a concrete inline module of size 5 and a concrete
non-inline module. -/
theorem getSize_default_sizes_witness :
    getSize inlineModuleW none =
      ((SourceContent.str (stringUnits "hello")).size : ℚ) * 1.34 + 36 ∧
    getSize resourceModuleW none = 42 :=
  ⟨((getSize_default_sizes inlineModuleW).1 _ rfl rfl).1,
    (getSize_default_sizes resourceModuleW).2 rfl⟩

/-- C10: for an inline module whose original content is unavailable,
`getSize` with the default (code) kind returns 0, not 36. -/
theorem getSize_inline_no_source_zero (m : AssetModule)
    (hd : m.buildInfo.dataUrl = true) (hs : m.originalSource = none) :
    getSize m none = 0 ∧ getSize m none ≠ 36 := by
  constructor
  · simp [getSize, hd, hs]
  · simp [getSize, hd, hs]

/-- Witness for C10 at a concrete content-less inline module. -/
theorem getSize_inline_no_source_zero_witness :
    getSize inlineNoSourceW none = 0 ∧ getSize inlineNoSourceW none ≠ 36 :=
  getSize_inline_no_source_zero inlineNoSourceW rfl rfl

/-- C9 counterexample: the discriminator mixed into the hash for an inline
module is the constant "data-url", which is neither of the tokens
"inline" / "resource" named by the claim. -/
theorem updateHash_claim_counterexample :
    updateHash [] inlineModuleW = ["data-url"] ∧
    ("data-url" : String) ≠ "inline" ∧ ("data-url" : String) ≠ "resource" :=
  ⟨rfl, by decide, by decide⟩

/-- C9 (amended): `updateHash` mixes exactly one of the two constant
discriminator tokens "data-url" / "resource" into the caller-owned hash,
chosen solely by the inline flag; equal flags mix equal tokens, and the
inline token differs from the non-inline token. -/
theorem updateHash_amended_discriminator (hash : List String) (m m2 : AssetModule) :
    updateHash hash m =
      hash ++ [if m.buildInfo.dataUrl then "data-url" else "resource"] ∧
    (m.buildInfo.dataUrl = m2.buildInfo.dataUrl → updateHash hash m = updateHash hash m2) ∧
    (m.buildInfo.dataUrl = true → m2.buildInfo.dataUrl = false →
      updateHash hash m ≠ updateHash hash m2) := by
  refine ⟨rfl, ?_, ?_⟩
  · intro h
    simp [updateHash, h]
  · intro h1 h2
    simp [updateHash, h1, h2]

/-- Witness for C9 (amended) at concrete inline and resource modules. -/
theorem updateHash_amended_discriminator_witness :
    updateHash [] inlineModuleW =
      [] ++ [if inlineModuleW.buildInfo.dataUrl then "data-url" else "resource"] ∧
    (inlineModuleW.buildInfo.dataUrl = resourceModuleW.buildInfo.dataUrl →
      updateHash [] inlineModuleW = updateHash [] resourceModuleW) ∧
    (inlineModuleW.buildInfo.dataUrl = true → resourceModuleW.buildInfo.dataUrl = false →
      updateHash [] inlineModuleW ≠ updateHash [] resourceModuleW) :=
  updateHash_amended_discriminator [] inlineModuleW resourceModuleW

/-! ### Round-trip lemmas for the two payload encodings -/

/-- A hex digit character decodes back to its value. -/
theorem hexVal_hexDigitChar : ∀ d, d < 16 → hexVal (hexDigitChar d) = some d := by decide

/-- Decoding a non-escape character passes it through. -/
theorem percentDecode_cons_ne (c : Nat) (l : List Nat) (h : c ≠ 37) :
    percentDecode (c :: l) = (percentDecode l).map (fun r => c :: r) := by
  rw [percentDecode.eq_def]
  dsimp only
  rw [if_neg h]

/-- Decoding a well-formed percent escape recovers the byte. -/
theorem percentDecode_escape (b : Nat) (l : List Nat) (hb : b < 256) :
    percentDecode (37 :: hexDigitChar (b / 16) :: hexDigitChar (b % 16) :: l) =
      (percentDecode l).map (fun r => b :: r) := by
  rw [percentDecode.eq_def]
  dsimp only
  rw [hexVal_hexDigitChar _ (by omega), hexVal_hexDigitChar _ (by omega)]
  dsimp only
  have hbe : 16 * (b / 16) + b % 16 = b := by omega
  rw [hbe, if_pos rfl]

/-- Percent-decoding inverts `encodeURI` on ASCII code points. -/
theorem percentDecode_encodeURI (T : List Nat) (hT : ∀ c ∈ T, c < 128) :
    percentDecode (encodeURI T) = some T := by
  induction T with
  | nil => rfl
  | cons c rest ih =>
    have hc : c < 128 := hT c (by simp)
    have ih' : percentDecode (encodeURI rest) = some rest :=
      ih (fun x hx => hT x (by simp [hx]))
    by_cases hu : uriUnescaped c = true
    · have hne : c ≠ 37 := by
        intro h
        rw [h] at hu
        exact absurd hu (by decide)
      simp only [encodeURI, hu, if_true, List.singleton_append]
      rw [percentDecode_cons_ne c _ hne, ih']
      rfl
    · have h8 : utf8EncodeChar c = [c] := by
        unfold utf8EncodeChar
        rw [if_pos hc]
      simp only [encodeURI, hu, Bool.false_eq_true, if_false, h8]
      simp only [percentEscapeBytes, percentByte, List.cons_append, List.nil_append,
        List.append_nil]
      rw [percentDecode_escape c _ (by omega), ih']
      rfl

/-- A base64 alphabet character decodes back to its sextet value. -/
theorem sextetVal_sextetChar : ∀ n, n < 64 → sextetVal (sextetChar n) = some n := by decide

/-- The base64 alphabet never produces the padding character. -/
theorem sextetChar_ne_61 (n : Nat) : sextetChar n ≠ 61 := by
  unfold sextetChar
  split_ifs <;> omega

/-- Base64 decoding inverts base64 encoding on byte sequences. -/
theorem base64Decode_base64Encode (l : List Nat) :
    (∀ b ∈ l, b < 256) → base64Decode (base64Encode l) = some l := by
  induction l using base64Encode.induct with
  | case1 =>
    intro _
    rfl
  | case2 b1 =>
    intro h
    have hb1 : b1 < 256 := h b1 (by simp)
    simp only [base64Encode]
    rw [base64Decode.eq_def]
    dsimp only
    rw [sextetVal_sextetChar _ (by omega), sextetVal_sextetChar _ (by omega)]
    dsimp only
    rw [if_pos rfl, if_pos ⟨rfl, rfl⟩]
    have e1 : b1 / 4 * 4 + b1 % 4 * 16 / 16 = b1 := by omega
    rw [e1]
  | case3 b1 b2 =>
    intro h
    have hb1 : b1 < 256 := h b1 (by simp)
    have hb2 : b2 < 256 := h b2 (by simp)
    simp only [base64Encode]
    rw [base64Decode.eq_def]
    dsimp only
    rw [sextetVal_sextetChar _ (by omega), sextetVal_sextetChar _ (by omega)]
    dsimp only
    rw [if_neg (sextetChar_ne_61 _), sextetVal_sextetChar _ (by omega)]
    dsimp only
    rw [if_pos rfl, if_pos rfl]
    have e1 : b1 / 4 * 4 + (b1 % 4 * 16 + b2 / 16) / 16 = b1 := by omega
    have e2 : (b1 % 4 * 16 + b2 / 16) % 16 * 16 + b2 % 16 * 4 / 4 = b2 := by omega
    rw [e1, e2]
  | case4 b1 b2 b3 rest ih =>
    intro h
    have hb1 : b1 < 256 := h b1 (by simp)
    have hb2 : b2 < 256 := h b2 (by simp)
    have hb3 : b3 < 256 := h b3 (by simp)
    have ih' : base64Decode (base64Encode rest) = some rest :=
      ih (fun b hb => h b (by simp [hb]))
    simp only [base64Encode]
    rw [base64Decode.eq_def]
    dsimp only
    rw [sextetVal_sextetChar _ (by omega), sextetVal_sextetChar _ (by omega)]
    dsimp only
    rw [if_neg (sextetChar_ne_61 _), sextetVal_sextetChar _ (by omega)]
    dsimp only
    rw [if_neg (sextetChar_ne_61 _), sextetVal_sextetChar _ (by omega)]
    dsimp only
    rw [ih']
    have e1 : b1 / 4 * 4 + (b1 % 4 * 16 + b2 / 16) / 16 = b1 := by omega
    have e2 : (b1 % 4 * 16 + b2 / 16) % 16 * 16 + (b2 % 16 * 4 + b3 / 64) / 4 = b2 := by omega
    have e3 : (b2 % 16 * 4 + b3 / 64) % 4 * 64 + b3 % 64 = b3 := by omega
    rw [e1, e2, e3]
    rfl

/-! ### C2, C3: data-URL payload round-trips -/

/-- C2: in DataUrl mode with declarative encoding `false`, for any ASCII
text T the produced data URL is `data:<mimetype>` followed by a comma and
the percent-encoded payload, and percent-decoding that payload yields
exactly T; `generate` wraps exactly this data URL into the emitted code. -/
theorem dataUrl_false_percent_roundtrip
    (env : Env) (cctx : String) (oo : OutputOptions) (fil mto : Option String)
    (T : List Nat) (m : AssetModule) (ctx : GenerateContext) (mt : String)
    (hT : ∀ c ∈ T, c < 128)
    (hs : m.originalSource = some (.str T))
    (hd : m.buildInfo.dataUrl = true)
    (ht : ctx.type ≠ "asset")
    (hc : ctx.concatenationScope = false)
    (hmime : resolveMime mto (env.mimeLookup (pathExtname m.nameForCondition)) = some mt) :
    generateDataUrl ⟨.declarative .noEncoding mto, fil⟩ env m (.str T) =
      .ok (stringUnits ("data:" ++ mt) ++ 44 :: encodeURI T) ∧
    percentDecode (encodeURI T) = some T ∧
    generate ⟨.declarative .noEncoding mto, fil⟩ env cctx oo m ctx =
      .ok { source := .raw (RuntimeGlobals.module ++ ".exports = " ++
              env.jsonStringifyUnits (stringUnits ("data:" ++ mt) ++ 44 :: encodeURI T) ++ ";"),
            buildInfo := m.buildInfo,
            runtimeRequirements := ctx.runtimeRequirements ++ [RuntimeGlobals.module],
            registeredExports := [] } := by
  have h1 : generateDataUrl ⟨.declarative .noEncoding mto, fil⟩ env m (.str T) =
      .ok (stringUnits ("data:" ++ mt) ++ 44 :: encodeURI T) := by
    simp only [generateDataUrl, hmime]
    rfl
  refine ⟨h1, percentDecode_encodeURI T hT, ?_⟩
  unfold generate
  rw [if_neg ht, hs]
  simp only [hd, if_true, h1, hc, Bool.false_eq_true, if_false]

/-- Witness for C2 at T = "hello", mimetype "text/plain". -/
theorem dataUrl_false_percent_roundtrip_witness :
    generateDataUrl ⟨.declarative .noEncoding none, none⟩ envW inlineModuleW
        (.str (stringUnits "hello")) =
      .ok (stringUnits ("data:" ++ "text/plain") ++ 44 :: encodeURI (stringUnits "hello")) ∧
    percentDecode (encodeURI (stringUnits "hello")) = some (stringUnits "hello") ∧
    generate ⟨.declarative .noEncoding none, none⟩ envW "/proj" ooW inlineModuleW ctxJsW =
      .ok { source := .raw (RuntimeGlobals.module ++ ".exports = " ++
              envW.jsonStringifyUnits (stringUnits ("data:" ++ "text/plain") ++
                44 :: encodeURI (stringUnits "hello")) ++ ";"),
            buildInfo := inlineModuleW.buildInfo,
            runtimeRequirements := ctxJsW.runtimeRequirements ++ [RuntimeGlobals.module],
            registeredExports := [] } :=
  dataUrl_false_percent_roundtrip envW "/proj" ooW none none (stringUnits "hello")
    inlineModuleW ctxJsW "text/plain" (by decide) rfl rfl (by decide) rfl (by decide)

/-- C3: in DataUrl mode with declarative encoding "base64" and a resolvable
mimetype, the produced data URL is `data:<mimetype>;base64` followed by a
comma and the base64 payload, and base64-decoding that payload yields
exactly the original bytes C; `generate` wraps exactly this data URL into
the emitted code. -/
theorem dataUrl_base64_roundtrip
    (env : Env) (cctx : String) (oo : OutputOptions) (fil mto : Option String)
    (C : List Nat) (m : AssetModule) (ctx : GenerateContext) (mt : String)
    (hC : ∀ b ∈ C, b < 256)
    (hs : m.originalSource = some (.buf C))
    (hd : m.buildInfo.dataUrl = true)
    (ht : ctx.type ≠ "asset")
    (hc : ctx.concatenationScope = false)
    (hmime : resolveMime mto (env.mimeLookup (pathExtname m.nameForCondition)) = some mt) :
    generateDataUrl ⟨.declarative .base64 mto, fil⟩ env m (.buf C) =
      .ok (stringUnits ("data:" ++ mt ++ ";base64") ++ 44 :: base64Encode C) ∧
    base64Decode (base64Encode C) = some C ∧
    generate ⟨.declarative .base64 mto, fil⟩ env cctx oo m ctx =
      .ok { source := .raw (RuntimeGlobals.module ++ ".exports = " ++
              env.jsonStringifyUnits (stringUnits ("data:" ++ mt ++ ";base64") ++
                44 :: base64Encode C) ++ ";"),
            buildInfo := m.buildInfo,
            runtimeRequirements := ctx.runtimeRequirements ++ [RuntimeGlobals.module],
            registeredExports := [] } := by
  have h1 : generateDataUrl ⟨.declarative .base64 mto, fil⟩ env m (.buf C) =
      .ok (stringUnits ("data:" ++ mt ++ ";base64") ++ 44 :: base64Encode C) := by
    simp only [generateDataUrl, hmime]
    rfl
  refine ⟨h1, base64Decode_base64Encode C hC, ?_⟩
  unfold generate
  rw [if_neg ht, hs]
  simp only [hd, if_true, h1, hc, Bool.false_eq_true, if_false]

/-- Witness for C3 at four PNG-signature bytes, mimetype "image/png". -/
theorem dataUrl_base64_roundtrip_witness :
    generateDataUrl ⟨.declarative .base64 none, none⟩ envW inlinePngW
        (.buf [137, 80, 78, 71]) =
      .ok (stringUnits ("data:" ++ "image/png" ++ ";base64") ++
        44 :: base64Encode [137, 80, 78, 71]) ∧
    base64Decode (base64Encode [137, 80, 78, 71]) = some [137, 80, 78, 71] ∧
    generate ⟨.declarative .base64 none, none⟩ envW "/proj" ooW inlinePngW ctxJsW =
      .ok { source := .raw (RuntimeGlobals.module ++ ".exports = " ++
              envW.jsonStringifyUnits (stringUnits ("data:" ++ "image/png" ++ ";base64") ++
                44 :: base64Encode [137, 80, 78, 71]) ++ ";"),
            buildInfo := inlinePngW.buildInfo,
            runtimeRequirements := ctxJsW.runtimeRequirements ++ [RuntimeGlobals.module],
            registeredExports := [] } :=
  dataUrl_base64_roundtrip envW "/proj" ooW none none [137, 80, 78, 71]
    inlinePngW ctxJsW "image/png" (by decide) rfl rfl (by decide) rfl (by decide)

/-! ### C4: declarative DataUrl error behaviour -/

/-- C4: in the declarative DataUrl variant, `generate` errors if and only
if no mimetype resolves (override or extension lookup) or the encoding is
outside {"base64", false}; the missing-mimetype error names the extension
and the unsupported-encoding error names the encoding; there are no other
error paths. -/
theorem generate_declarative_error_iff
    (env : Env) (cctx : String) (oo : OutputOptions) (fil mto : Option String)
    (enc : EncodingOpt) (m : AssetModule) (ctx : GenerateContext) (s : SourceContent)
    (hs : m.originalSource = some s)
    (hd : m.buildInfo.dataUrl = true)
    (ht : ctx.type ≠ "asset") :
    ((∃ e, generate ⟨.declarative enc mto, fil⟩ env cctx oo m ctx = .error e) ↔
      (resolveMime mto (env.mimeLookup (pathExtname m.nameForCondition)) = none ∨
        ∃ str, enc = .other str)) ∧
    (resolveMime mto (env.mimeLookup (pathExtname m.nameForCondition)) = none →
      generate ⟨.declarative enc mto, fil⟩ env cctx oo m ctx =
        .error (missingMimeMessage (pathExtname m.nameForCondition)) ∧
      ∃ pre post, missingMimeMessage (pathExtname m.nameForCondition) =
        pre ++ pathExtname m.nameForCondition ++ post) ∧
    (∀ str, enc = .other str →
      resolveMime mto (env.mimeLookup (pathExtname m.nameForCondition)) ≠ none →
      generate ⟨.declarative enc mto, fil⟩ env cctx oo m ctx =
        .error (unsupportedEncodingMessage str) ∧
      ∃ pre post, unsupportedEncodingMessage str = pre ++ str ++ post) := by
  cases hmime : resolveMime mto (env.mimeLookup (pathExtname m.nameForCondition)) with
  | none =>
    have hdu : generateDataUrl ⟨.declarative enc mto, fil⟩ env m s =
        .error (missingMimeMessage (pathExtname m.nameForCondition)) := by
      simp only [generateDataUrl, hmime]
    have hg : generate ⟨.declarative enc mto, fil⟩ env cctx oo m ctx =
        .error (missingMimeMessage (pathExtname m.nameForCondition)) := by
      unfold generate
      rw [if_neg ht, hs]
      simp only [hd, if_true, hdu]
    refine ⟨⟨fun _ => Or.inl rfl, fun _ => ⟨_, hg⟩⟩, fun _ => ⟨hg, ?_⟩,
      fun str hstr hne => absurd rfl hne⟩
    exact ⟨"DataUrl can\x27t be generated automatically, because there is no mimetype for \"",
      "\" in mimetype database. Either pass a mimetype via \"generator.mimetype\" or " ++
        "use type: \"asset/resource\" to create a resource file instead of a DataUrl",
      by unfold missingMimeMessage; exact String.append_assoc _ _ _⟩
  | some mt =>
    cases enc with
    | base64 =>
      have hnoerr : ∀ e, generate ⟨.declarative .base64 mto, fil⟩ env cctx oo m ctx ≠
          .error e := by
        intro e
        have hdu : generateDataUrl ⟨.declarative .base64 mto, fil⟩ env m s =
            .ok (stringUnits ("data:" ++ mt ++ ";base64") ++
              44 :: base64Encode s.buffer) := by
          simp only [generateDataUrl, hmime]
        unfold generate
        rw [if_neg ht, hs]
        simp only [hd, if_true, hdu]
        by_cases hcs : ctx.concatenationScope <;> simp [hcs]
      refine ⟨⟨fun h => ?_, fun h => ?_⟩, fun h => ?_, fun str hstr _ => ?_⟩
      · obtain ⟨e, he⟩ := h
        exact absurd he (hnoerr e)
      · rcases h with h | ⟨str, hstr⟩
        · exact Option.noConfusion h
        · exact EncodingOpt.noConfusion hstr
      · exact Option.noConfusion h
      · exact EncodingOpt.noConfusion hstr
    | noEncoding =>
      have hnoerr : ∀ e, generate ⟨.declarative .noEncoding mto, fil⟩ env cctx oo m ctx ≠
          .error e := by
        intro e
        have hdu : generateDataUrl ⟨.declarative .noEncoding mto, fil⟩ env m s =
            .ok (stringUnits ("data:" ++ mt) ++ 44 :: encodeURI s.textUnits) := by
          simp only [generateDataUrl, hmime]
        unfold generate
        rw [if_neg ht, hs]
        simp only [hd, if_true, hdu]
        by_cases hcs : ctx.concatenationScope <;> simp [hcs]
      refine ⟨⟨fun h => ?_, fun h => ?_⟩, fun h => ?_, fun str hstr _ => ?_⟩
      · obtain ⟨e, he⟩ := h
        exact absurd he (hnoerr e)
      · rcases h with h | ⟨str, hstr⟩
        · exact Option.noConfusion h
        · exact EncodingOpt.noConfusion hstr
      · exact Option.noConfusion h
      · exact EncodingOpt.noConfusion hstr
    | other str0 =>
      have hdu : generateDataUrl ⟨.declarative (.other str0) mto, fil⟩ env m s =
          .error (unsupportedEncodingMessage str0) := by
        simp only [generateDataUrl, hmime]
      have hg : generate ⟨.declarative (.other str0) mto, fil⟩ env cctx oo m ctx =
          .error (unsupportedEncodingMessage str0) := by
        unfold generate
        rw [if_neg ht, hs]
        simp only [hd, if_true, hdu]
      refine ⟨⟨fun _ => Or.inr ⟨str0, rfl⟩, fun _ => ⟨_, hg⟩⟩, fun h => ?_,
        fun str hstr _ => ?_⟩
      · exact Option.noConfusion h
      · cases hstr
        exact ⟨hg, "Unsupported encoding \x27", "\x27", rfl⟩

/-- Witness for C4: a module with extension ".unknownext", no override and
encoding "base64" errors with the message naming the extension. -/
theorem generate_declarative_error_iff_witness :
    ((∃ e, generate ⟨.declarative .base64 none, none⟩ envW "/proj" ooW
        unknownExtModuleW ctxJsW = .error e) ↔
      (resolveMime none (envW.mimeLookup (pathExtname unknownExtModuleW.nameForCondition)) =
        none ∨ ∃ str, EncodingOpt.base64 = .other str)) ∧
    (resolveMime none (envW.mimeLookup (pathExtname unknownExtModuleW.nameForCondition)) =
        none →
      generate ⟨.declarative .base64 none, none⟩ envW "/proj" ooW unknownExtModuleW ctxJsW =
        .error (missingMimeMessage (pathExtname unknownExtModuleW.nameForCondition)) ∧
      ∃ pre post, missingMimeMessage (pathExtname unknownExtModuleW.nameForCondition) =
        pre ++ pathExtname unknownExtModuleW.nameForCondition ++ post) ∧
    (∀ str, EncodingOpt.base64 = .other str →
      resolveMime none (envW.mimeLookup (pathExtname unknownExtModuleW.nameForCondition)) ≠
        none →
      generate ⟨.declarative .base64 none, none⟩ envW "/proj" ooW unknownExtModuleW ctxJsW =
        .error (unsupportedEncodingMessage str) ∧
      ∃ pre post, unsupportedEncodingMessage str = pre ++ str ++ post) :=
  generate_declarative_error_iff envW "/proj" ooW none none .base64 unknownExtModuleW
    ctxJsW (.buf [1, 2]) rfl rfl (by decide)

/-! ### C1, C5: Resource-mode build-info -/

/-- In Resource mode `generate` succeeds and writes the three build-info
fields from the content hash and the resolved path. -/
theorem generate_resource_ok (gen : AssetGenerator) (env : Env) (cctx : String)
    (oo : OutputOptions) (m : AssetModule) (ctx : GenerateContext) (s : SourceContent)
    (hs : m.originalSource = some s) (hd : m.buildInfo.dataUrl = false)
    (ht : ctx.type ≠ "asset") :
    ∃ o, generate gen env cctx oo m ctx = .ok o ∧
      o.buildInfo = { m.buildInfo with
        fullContentHash := some (resourceFullHash env oo s.buffer)
        filename := some (resourcePathInfo gen env cctx oo s.buffer
          (jsOrStr m.matchResource m.resource)).1
        assetInfo := some (resourcePathInfo gen env cctx oo s.buffer
          (jsOrStr m.matchResource m.resource)).2 } := by
  unfold generate
  rw [if_neg ht, hs]
  simp only [hd, Bool.false_eq_true, if_false]
  by_cases hc : ctx.concatenationScope <;> simp only [hc, if_true, Bool.false_eq_true,
    if_false] <;> exact ⟨_, rfl, rfl⟩

/-- C1: two Resource-mode `generate` calls with identical original bytes,
identical hash function / salt / digest settings, identical filename
template and identical module identifier (hence relative path) resolve the
same output filename and store the same full content hash in build-info. -/
theorem generate_resource_deterministic
    (gen : AssetGenerator) (env : Env) (cctx : String) (oo : OutputOptions)
    (m1 m2 : AssetModule) (ctx1 ctx2 : GenerateContext) (s1 s2 : SourceContent)
    (h1 : m1.originalSource = some s1) (h2 : m2.originalSource = some s2)
    (hbuf : s1.buffer = s2.buffer)
    (hd1 : m1.buildInfo.dataUrl = false) (hd2 : m2.buildInfo.dataUrl = false)
    (ht1 : ctx1.type ≠ "asset") (ht2 : ctx2.type ≠ "asset")
    (hid : jsOrStr m1.matchResource m1.resource = jsOrStr m2.matchResource m2.resource) :
    ∃ o1 o2, generate gen env cctx oo m1 ctx1 = .ok o1 ∧
      generate gen env cctx oo m2 ctx2 = .ok o2 ∧
      o1.buildInfo.filename = o2.buildInfo.filename ∧
      o1.buildInfo.fullContentHash = o2.buildInfo.fullContentHash ∧
      o1.buildInfo.filename ≠ none ∧ o1.buildInfo.fullContentHash ≠ none := by
  obtain ⟨o1, hg1, hb1⟩ := generate_resource_ok gen env cctx oo m1 ctx1 s1 h1 hd1 ht1
  obtain ⟨o2, hg2, hb2⟩ := generate_resource_ok gen env cctx oo m2 ctx2 s2 h2 hd2 ht2
  refine ⟨o1, o2, hg1, hg2, ?_, ?_, ?_, ?_⟩
  · rw [hb1, hb2, hbuf, hid]
  · rw [hb1, hb2, hbuf]
  · rw [hb1]
    simp
  · rw [hb1]
    simp

/-- Witness for C1 at two concrete Resource-mode calls on the same module. -/
theorem generate_resource_deterministic_witness :
    ∃ o1 o2, generate genBase64W envW "/proj" ooW resourceModuleW ctxJsW = .ok o1 ∧
      generate genBase64W envW "/proj" ooW resourceModuleW ctxJsW = .ok o2 ∧
      o1.buildInfo.filename = o2.buildInfo.filename ∧
      o1.buildInfo.fullContentHash = o2.buildInfo.fullContentHash ∧
      o1.buildInfo.filename ≠ none ∧ o1.buildInfo.fullContentHash ≠ none :=
  generate_resource_deterministic genBase64W envW "/proj" ooW resourceModuleW
    resourceModuleW ctxJsW ctxJsW (.buf [1, 2, 3, 4, 5]) (.buf [1, 2, 3, 4, 5])
    rfl rfl rfl rfl rfl (by decide) (by decide) rfl

/-- C5: after any successful `generate` call on a module whose three
Resource-mode build-info fields start unset, the fields are never
partially set: Asset and DataUrl modes leave build-info untouched (all
unset), and Resource mode sets all three together. -/
theorem buildInfo_all_or_nothing (gen : AssetGenerator) (env : Env) (cctx : String)
    (oo : OutputOptions) (m : AssetModule) (ctx : GenerateContext) (o : GenerateOutcome)
    (hunset : buildInfoUnset m.buildInfo)
    (hok : generate gen env cctx oo m ctx = .ok o) :
    (buildInfoUnset o.buildInfo ∨ buildInfoAllSet o.buildInfo) ∧
    (ctx.type = "asset" ∨ m.buildInfo.dataUrl = true → o.buildInfo = m.buildInfo) ∧
    (ctx.type ≠ "asset" → m.buildInfo.dataUrl = false → buildInfoAllSet o.buildInfo) := by
  unfold generate at hok
  by_cases ht : ctx.type = "asset"
  · rw [if_pos ht] at hok
    injection hok with h
    subst h
    exact ⟨Or.inl hunset, fun _ => rfl, fun hta _ => absurd ht hta⟩
  · rw [if_neg ht] at hok
    cases hsrc : m.originalSource with
    | none =>
      rw [hsrc] at hok
      exact Except.noConfusion hok
    | some s =>
      rw [hsrc] at hok
      by_cases hd : m.buildInfo.dataUrl = true
      · simp only [hd, if_true] at hok
        cases hdu : generateDataUrl gen env m s with
        | error e =>
          rw [hdu] at hok
          exact Except.noConfusion hok
        | ok enc =>
          rw [hdu] at hok
          by_cases hc : ctx.concatenationScope <;>
            simp only [hc, if_true, Bool.false_eq_true, if_false] at hok <;>
            injection hok with h <;> subst h
          · exact ⟨Or.inl hunset, fun _ => rfl, fun _ hda => by rw [hd] at hda; cases hda⟩
          · exact ⟨Or.inl hunset, fun _ => rfl, fun _ hda => by rw [hd] at hda; cases hda⟩
      · have hd' : m.buildInfo.dataUrl = false := by
          cases hdb : m.buildInfo.dataUrl with
          | true => exact absurd hdb hd
          | false => rfl
        simp only [hd', Bool.false_eq_true, if_false] at hok
        by_cases hc : ctx.concatenationScope <;>
          simp only [hc, if_true, Bool.false_eq_true, if_false] at hok <;>
          injection hok with h <;> subst h
        · refine ⟨Or.inr ⟨by simp, by simp, by simp⟩,
            fun hcase => ?_, fun _ _ => ⟨by simp, by simp, by simp⟩⟩
          rcases hcase with hta | hda
          · exact absurd hta ht
          · rw [hd'] at hda
            cases hda
        · refine ⟨Or.inr ⟨by simp, by simp, by simp⟩,
            fun hcase => ?_, fun _ _ => ⟨by simp, by simp, by simp⟩⟩
          rcases hcase with hta | hda
          · exact absurd hta ht
          · rw [hd'] at hda
            cases hda

/-- Witness for C5 at a concrete asset-kind call on a fresh module. -/
theorem buildInfo_all_or_nothing_witness :
    (buildInfoUnset assetOutcomeW.buildInfo ∨ buildInfoAllSet assetOutcomeW.buildInfo) ∧
    (ctxAssetW.type = "asset" ∨ resourceModuleW.buildInfo.dataUrl = true →
      assetOutcomeW.buildInfo = resourceModuleW.buildInfo) ∧
    (ctxAssetW.type ≠ "asset" → resourceModuleW.buildInfo.dataUrl = false →
      buildInfoAllSet assetOutcomeW.buildInfo) :=
  buildInfo_all_or_nothing genBase64W envW "/proj" ooW resourceModuleW ctxAssetW
    assetOutcomeW ⟨rfl, rfl, rfl⟩ rfl
